import Mathlib

/-!
Shallow embedding of the multi-agent orchestration pattern of
`crewai-multi-agent-cookbook` (files `registry.py`, `agents.py`,
`orchestration.py`).

Modelling conventions:
* Python floats (capability proficiencies, confidences) are embedded as
  rationals `ℚ`; decimal literals such as `0.95` elaborate to the exact
  rational `19/20`.
* Python `int` values (`depth`, `max_depth`, `complexity`) are embedded
  as `Int`.
* Python dicts keyed by strings are embedded as association lists
  `List (String × α)` in insertion order, with `dict_lookup` and
  `dict_set` mirroring `d[k]` reads and `d[k] = v` writes.
* Every LLM call site receives the model response as an explicit input
  (an oracle): the response is the result of `json.loads` projected to
  the fields the code reads, with `none` standing for a response that is
  not valid JSON (`json.JSONDecodeError`), and `Option` fields standing
  for keys that may be absent (`KeyError`).
* Python exceptions are embedded as `Except PyError`; the constructors
  mirror `KeyError`, `ValueError` and `StopIteration`.
-/

/-- Python exception outcomes reachable in the embedded fragment. -/
inductive PyError where
  | keyError (key : String)
  | valueError (msg : String)
  | stopIteration
  deriving DecidableEq, Repr

/-- Association-list lookup, mirroring a Python dict read `d[k]`
(keys are unique in every dict the source builds). -/
def dict_lookup {α : Type} : List (String × α) → String → Option α
  | [], _ => none
  | (k, v) :: rest, key => if k = key then some v else dict_lookup rest key

/-- Association-list update, mirroring a Python dict write `d[k] = v`:
an existing key keeps its position, a new key is appended (insertion
order). -/
def dict_set {α : Type} : List (String × α) → String → α → List (String × α)
  | [], key, v => [(key, v)]
  | (k, w) :: rest, key, v =>
    if k = key then (key, v) :: rest else (k, w) :: dict_set rest key v

/-- Mirrors `d[k]`: raises `KeyError` when the key is absent. -/
def py_get {α : Type} (v : Option α) (key : String) : Except PyError α :=
  match v with
  | some x => Except.ok x
  | none => Except.error (PyError.keyError key)

/-- registry.py `TaskType` enum. -/
inductive TaskType where
  | research
  | analysis
  | creative
  | technical
  | financial
  | legal
  | general
  deriving DecidableEq, Repr

/-- Mirrors the Python enum constructor `TaskType(value)`: `none`
stands for the `ValueError` raised on an unknown value. -/
def TaskType.ofString : String → Option TaskType
  | "research" => some TaskType.research
  | "analysis" => some TaskType.analysis
  | "creative" => some TaskType.creative
  | "technical" => some TaskType.technical
  | "financial" => some TaskType.financial
  | "legal" => some TaskType.legal
  | "general" => some TaskType.general
  | _ => none

/-- registry.py `SubTask` dataclass. -/
structure SubTask where
  id : String
  description : String
  type : TaskType
  complexity : Int
  dependencies : List String
  required_tools : List String
  required_capabilities : List String
  deriving DecidableEq, Repr

/-- registry.py `TaskDecomposition` dataclass. -/
structure TaskDecomposition where
  original_query : String
  subtasks : List SubTask
  execution_order : List String
  parallel_groups : List (List String)
  deriving DecidableEq, Repr

/-- registry.py `AgentCapability` dataclass; `proficiency` is a float
in `[0, 1]` embedded as `ℚ`. -/
structure AgentCapability where
  name : String
  description : String
  proficiency : ℚ
  deriving DecidableEq, Repr

/-- registry.py `DelegationDecision` dataclass. -/
structure DelegationDecision where
  from_agent : String
  to_agent : String
  task : SubTask
  reason : String
  confidence : ℚ
  deriving DecidableEq, Repr

/-- Keys of registry.py `TOOL_REGISTRY` (the tool objects themselves are
opaque; only membership of a name in the registry is ever consulted). -/
def TOOL_REGISTRY : List String :=
  ["search_web", "database_query", "code_executor", "document_retriever",
   "financial_analysis"]

/-- agents.py `BaseSpecializedAgent`: `capabilities` is the dict
`{cap.name: cap}`, `tools` the registry-filtered tool-name list. -/
structure BaseSpecializedAgent where
  name : String
  role : String
  capabilities : List (String × AgentCapability)
  tools : List String
  deriving DecidableEq, Repr

/-- agents.py `BaseSpecializedAgent.__init__`: builds the capability
dict from the capability list and filters tools by registry
membership. -/
def init_agent (name role : String) (capabilities : List AgentCapability)
    (tools : List String) : BaseSpecializedAgent :=
  { name := name
    role := role
    capabilities :=
      capabilities.foldl (fun d cap => dict_set d cap.name cap) []
    tools := tools.filter (fun t => TOOL_REGISTRY.contains t) }

/-- agents.py `BaseSpecializedAgent.get_capability_score`: 0.5 on an
empty requirement list, otherwise the loop-accumulated sum of the
proficiencies of the required capabilities the agent has, divided by the
number of required capabilities. -/
def get_capability_score (a : BaseSpecializedAgent)
    (required_capabilities : List String) : ℚ :=
  if required_capabilities = [] then 0.5
  else
    let total_score := required_capabilities.foldl
      (fun total req_cap =>
        match dict_lookup a.capabilities req_cap with
        | some cap => total + cap.proficiency
        | none => total) 0
    total_score / (required_capabilities.length : ℚ)

/-- agents.py `ResearchSpecialistAgent`. -/
def research_specialist : BaseSpecializedAgent :=
  init_agent "research_specialist" "Senior Research Analyst"
    [⟨"web_research", "Expert at finding and synthesizing web information", 0.95⟩,
     ⟨"fact_checking", "Validates information accuracy", 0.9⟩,
     ⟨"source_evaluation", "Assesses source credibility", 0.85⟩,
     ⟨"trend_analysis", "Identifies patterns and trends", 0.8⟩]
    ["search_web", "document_retriever"]

/-- agents.py `DataAnalystAgent`. -/
def data_analyst : BaseSpecializedAgent :=
  init_agent "data_analyst" "Senior Data Analyst"
    [⟨"statistical_analysis", "Advanced statistical methods", 0.9⟩,
     ⟨"data_visualization", "Creates insightful visualizations", 0.85⟩,
     ⟨"predictive_modeling", "Builds predictive models", 0.8⟩,
     ⟨"database_operations", "Expert at data querying", 0.95⟩]
    ["database_query", "code_executor"]

/-- agents.py `FinancialAdvisorAgent`. -/
def financial_advisor : BaseSpecializedAgent :=
  init_agent "financial_advisor" "Senior Financial Advisor"
    [⟨"investment_analysis", "Portfolio and investment expertise", 0.9⟩,
     ⟨"risk_assessment", "Evaluates financial risks", 0.95⟩,
     ⟨"tax_planning", "Tax optimization strategies", 0.8⟩,
     ⟨"market_analysis", "Market trends and forecasting", 0.85⟩]
    ["financial_analysis", "search_web", "code_executor"]

/-- agents.py `TechnicalExpertAgent`. -/
def technical_expert : BaseSpecializedAgent :=
  init_agent "technical_expert" "Senior Technical Architect"
    [⟨"system_design", "Designs complex systems", 0.9⟩,
     ⟨"code_review", "Reviews and improves code", 0.85⟩,
     ⟨"debugging", "Identifies and fixes issues", 0.9⟩,
     ⟨"performance_optimization", "Optimizes system performance", 0.8⟩]
    ["code_executor", "document_retriever"]

/-- agents.py `CreativeWriterAgent`. -/
def creative_writer : BaseSpecializedAgent :=
  init_agent "creative_writer" "Senior Content Strategist"
    [⟨"content_creation", "Creates engaging content", 0.95⟩,
     ⟨"storytelling", "Crafts compelling narratives", 0.9⟩,
     ⟨"editing", "Refines and polishes content", 0.85⟩,
     ⟨"audience_analysis", "Understands target audiences", 0.8⟩]
    ["search_web", "document_retriever"]

/-- agents.py `LegalAdvisorAgent`. -/
def legal_advisor : BaseSpecializedAgent :=
  init_agent "legal_advisor" "Senior Legal Counsel"
    [⟨"contract_review", "Analyzes legal documents", 0.9⟩,
     ⟨"compliance_check", "Ensures regulatory compliance", 0.95⟩,
     ⟨"risk_mitigation", "Identifies legal risks", 0.85⟩,
     ⟨"legal_research", "Researches case law and regulations", 0.9⟩]
    ["document_retriever", "search_web"]

/-- agents.py `AGENT_REGISTRY` (the router's `agent_pool` instantiates
exactly these entries, so the same map also models the pool). -/
def AGENT_REGISTRY : List (String × BaseSpecializedAgent) :=
  [("research_specialist", research_specialist),
   ("data_analyst", data_analyst),
   ("financial_advisor", financial_advisor),
   ("technical_expert", technical_expert),
   ("creative_writer", creative_writer),
   ("legal_advisor", legal_advisor)]

/-- Reference sum for the capability score: the sum, over the required
capability names in order, of the proficiency of each capability the
agent has (0 for a name the agent lacks). Stated by structural
recursion, independently of the `foldl` used in
`get_capability_score`. -/
def matched_sum (a : BaseSpecializedAgent) : List String → ℚ
  | [] => 0
  | req_cap :: rest =>
    (match dict_lookup a.capabilities req_cap with
     | some cap => cap.proficiency
     | none => 0) + matched_sum a rest

/-- Shape of a successfully `json.loads`-parsed subtask entry of the
analysis response, projected to the keys the code reads; an `Option`
field is `none` when the key is absent (reading it raises
`KeyError`). -/
structure SubTaskJson where
  id : Option String
  description : Option String
  type : Option String
  complexity : Option Int
  dependencies : Option (List String)
  required_tools : Option (List String)
  required_capabilities : Option (List String)
  deriving DecidableEq, Repr

/-- Shape of a successfully parsed analysis response. -/
structure AnalysisJson where
  subtasks : Option (List SubTaskJson)
  execution_order : Option (List String)
  parallel_groups : Option (List (List String))
  deriving DecidableEq, Repr

/-- orchestration.py `TaskAnalyzer.decompose_user_query`, fallback
value used when `json.loads` raises `JSONDecodeError`. -/
def fallback_analysis (query : String) : AnalysisJson :=
  { subtasks := some
      [{ id := some "task_1"
         description := some query
         type := some "general"
         complexity := some 3
         dependencies := some []
         required_tools := some ["search_web"]
         required_capabilities := some ["web_research"] }]
    execution_order := some ["task_1"]
    parallel_groups := some [["task_1"]] }

/-- Body of the subtask-construction loop of `decompose_user_query`:
direct key reads raise `KeyError` when absent, `TaskType(st["type"])`
raises `ValueError` on an unknown tag, and the three `.get` reads fall
back to `[]`. -/
def build_subtask (st : SubTaskJson) : Except PyError SubTask := do
  let id ← py_get st.id "id"
  let description ← py_get st.description "description"
  let type_str ← py_get st.type "type"
  let ty ← (match TaskType.ofString type_str with
    | some t => Except.ok t
    | none => Except.error
        (PyError.valueError (type_str ++ " is not a valid TaskType")))
  let complexity ← py_get st.complexity "complexity"
  Except.ok
    { id := id
      description := description
      type := ty
      complexity := complexity
      dependencies := st.dependencies.getD []
      required_tools := st.required_tools.getD []
      required_capabilities := st.required_capabilities.getD [] }

/-- The subtask-construction loop of `decompose_user_query`, appending
one converted `SubTask` per response entry in order. -/
def build_subtasks : List SubTaskJson → Except PyError (List SubTask)
  | [] => Except.ok []
  | st :: rest => do
    let first ← build_subtask st
    let tail ← build_subtasks rest
    Except.ok (first :: tail)

/-- orchestration.py `TaskAnalyzer.decompose_user_query`. The model
response is an explicit input: `none` models a response that is not
valid JSON (`json.JSONDecodeError`), `some a` a parsed response of
shape `a`. The optional `ConversationContext` argument of the source
only alters the prompt sent to the model, never the result given the
response, so it is omitted. -/
def decompose_user_query (query : String) (response : Option AnalysisJson) :
    Except PyError TaskDecomposition := do
  let analysis := match response with
    | some a => a
    | none => fallback_analysis query
  let sts ← py_get analysis.subtasks "subtasks"
  let subtasks ← build_subtasks sts
  let execution_order ← py_get analysis.execution_order "execution_order"
  Except.ok
    { original_query := query
      subtasks := subtasks
      execution_order := execution_order
      parallel_groups :=
        analysis.parallel_groups.getD (subtasks.map (fun t => [t.id])) }

/-- Shape of a parsed agent-selection response, projected to the two
keys the code reads (`Option` field = key may be absent, its read
raising `KeyError`, which here is caught). -/
structure SelectionJson where
  agent : Option String
  confidence : Option ℚ
  deriving DecidableEq, Repr

/-- The `try` block of `select_agent_for_task`: `some (name, conf)`
when the response is valid JSON and both keys are present, `none` when
`json.loads` raises `JSONDecodeError` or either key read raises
`KeyError` (both are caught and trigger the fallback). -/
def parse_selection : Option SelectionJson → Option (String × ℚ)
  | some d =>
    (match d.agent, d.confidence with
     | some a, some c => some (a, c)
     | _, _ => none)
  | none => none

/-- Mirrors `self.agent_pool[name]` / `AGENT_REGISTRY[name]`: raises
`KeyError` on an unknown name. -/
def pool_lookup (name : String) : Except PyError BaseSpecializedAgent :=
  match dict_lookup AGENT_REGISTRY name with
  | some a => Except.ok a
  | none => Except.error (PyError.keyError name)

/-- Score of a name in the accumulated `agent_scores` dict (every name
scored in `select_agent_for_task` is in the dict, so the 0 default is
never consulted). -/
def score_of (scores : List (String × ℚ)) (name : String) : ℚ :=
  (dict_lookup scores name).getD 0

/-- Python `max(names, key=lambda name: agent_scores[name])`: raises
`ValueError` on an empty sequence, otherwise returns the first name
attaining the maximal score (`max` keeps the current element on
ties). -/
def py_max_by_score (scores : List (String × ℚ)) :
    List String → Except PyError String
  | [] => Except.error (PyError.valueError "max() arg is an empty sequence")
  | x :: xs => Except.ok
      (xs.foldl (fun best n =>
        if score_of scores best < score_of scores n then n else best) x)

/-- The capability-scoring loop of `select_agent_for_task`: builds the
`agent_scores` dict, raising `KeyError` for a candidate name absent
from the agent pool. -/
def compute_agent_scores (task : SubTask) (available : List String) :
    Except PyError (List (String × ℚ)) :=
  available.foldlM
    (fun d name => do
      let agent ← pool_lookup name
      Except.ok (dict_set d name
        (get_capability_score agent task.required_capabilities)))
    []

/-- orchestration.py `IntelligentRouter.select_agent_for_task`. The
model response is an explicit input. `available_agents = none` models
the Python default `None` (all pool keys). The prompt-only
`agent_descriptions` string of the source is omitted: it never affects
the result given the response. -/
def select_agent_for_task (response : Option SelectionJson) (task : SubTask)
    (available_agents : Option (List String)) :
    Except PyError (BaseSpecializedAgent × ℚ) := do
  let available := available_agents.getD (AGENT_REGISTRY.map (fun p => p.1))
  let agent_scores ← compute_agent_scores task available
  let selected ← (match parse_selection response with
    | some p => Except.ok p
    | none => do
        let best ← py_max_by_score agent_scores available
        Except.ok (best, score_of agent_scores best))
  let agent ← pool_lookup selected.1
  Except.ok (agent, selected.2)

/-- Shape of a parsed delegation response with all four read keys
present and of the expected types (a response missing one of them would
raise an uncaught `KeyError`; that path is outside the claims and not
modelled). -/
structure DelegationResponseData where
  should_delegate : Bool
  to_agent : Option String
  reason : String
  confidence : ℚ
  deriving DecidableEq, Repr

/-- Python truthiness of the `to_agent` value: JSON `null` and the
empty string are falsy, any other string truthy. -/
def truthy_to_agent : Option String → Bool
  | some s => s != ""
  | none => false

/-- Fallback `decision_data` used when `json.loads` raises
`JSONDecodeError` in `evaluate_delegation_need`. -/
def default_delegation_data : DelegationResponseData :=
  { should_delegate := false
    to_agent := none
    reason := "JSON parsing failed"
    confidence := 0.5 }

/-- orchestration.py `DelegationManager` state: `max_depth` (default 5)
and the append-only `delegation_history`. The stateless LLM client is
omitted. -/
structure DelegationManager where
  max_depth : Int
  delegation_history : List DelegationDecision
  deriving DecidableEq, Repr

/-- orchestration.py `DelegationManager.evaluate_delegation_need`.
The model response is an explicit input (`none` = `JSONDecodeError`);
the depth guard returns before the LLM call, so on that path the result
cannot depend on the response. Returns the decision (or `none`) paired
with the updated manager state. -/
def evaluate_delegation_need (mgr : DelegationManager)
    (response : Option DelegationResponseData) (agent : BaseSpecializedAgent)
    (task : SubTask) (depth : Int) :
    Option DelegationDecision × DelegationManager :=
  if depth ≥ mgr.max_depth then (none, mgr)
  else
    let decision_data := response.getD default_delegation_data
    if decision_data.should_delegate && truthy_to_agent decision_data.to_agent
    then
      let decision : DelegationDecision :=
        { from_agent := agent.name
          to_agent := decision_data.to_agent.getD ""
          task := task
          reason := decision_data.reason
          confidence := decision_data.confidence }
      (some decision,
       { mgr with
          delegation_history := mgr.delegation_history ++ [decision] })
    else (none, mgr)

/-- Result dict returned by `coordinate_agent_execution`. -/
structure ExecRecord where
  agent : String
  task_id : String
  task_description : String
  result : String
  tools_used : List String
  delegation_depth : Int
  deriving DecidableEq, Repr

/-- Names dispatched by the `if`/`elif` ladder of
`coordinate_agent_execution` (each branch calls the matching
`execute_X` method). -/
def EXECUTOR_AGENT_NAMES : List String :=
  ["research_specialist", "data_analyst", "financial_advisor",
   "technical_expert", "creative_writer", "legal_advisor"]

/-- Tail of `coordinate_agent_execution` once no delegation is taken:
the `if`/`elif` ladder dispatches on the agent name (the underlying
crew execution is the opaque oracle `execR`), the `else` branch raises
`ValueError`, and the result dict is assembled. -/
def run_current_agent (execR : String → SubTask → String)
    (agent_name : String) (agent : BaseSpecializedAgent) (task : SubTask)
    (depth : Int) : Except PyError ExecRecord :=
  if EXECUTOR_AGENT_NAMES.contains agent_name then
    Except.ok
      { agent := agent.name
        task_id := task.id
        task_description := task.description
        result := execR agent_name task
        tools_used := task.required_tools
        delegation_depth := depth }
  else Except.error (PyError.valueError ("Unknown agent type: " ++ agent_name))

/-- orchestration.py `AgentExecutor.coordinate_agent_execution`,
embedded with an explicit fuel bounding the number of nested calls
(`none` = fuel exhausted before the call could complete). The
delegation-response oracle is indexed by the call depth, which is
distinct for every nested call since each accepted delegation recurses
at exactly `depth + 1`. The pool/registry lookup of the source
(`agent_pool` falling back to `AGENT_REGISTRY[agent_name]()`, a
`KeyError` on unknown names since both have the same keys) is the
`pool_lookup` here. -/
def coordinate_fuel (fuel : Nat) (mgr : DelegationManager)
    (oracle : Int → Option DelegationResponseData)
    (execR : String → SubTask → String) (agent_name : String)
    (task : SubTask) (depth : Int) :
    Option (Except PyError ExecRecord × DelegationManager) :=
  match fuel with
  | 0 => none
  | fuel' + 1 =>
    match dict_lookup AGENT_REGISTRY agent_name with
    | none => some (Except.error (PyError.keyError agent_name), mgr)
    | some agent =>
      match evaluate_delegation_need mgr (oracle depth) agent task depth with
      | (some delegation, mgr') =>
        if (dict_lookup AGENT_REGISTRY delegation.to_agent).isSome then
          coordinate_fuel fuel' mgr' oracle execR delegation.to_agent task
            (depth + 1)
        else some (run_current_agent execR agent_name agent task depth, mgr')
      | (none, mgr') =>
        some (run_current_agent execR agent_name agent task depth, mgr')

/-- One entry of `execution_plan["task_assignments"]`. -/
structure TaskAssignment where
  agent : String
  confidence : ℚ
  task : SubTask
  deriving DecidableEq, Repr

/-- orchestration.py execution plan dict (the `delegation_paths` entry
is written once and never read, so it is omitted). -/
structure ExecutionPlan where
  parallel_groups : List (List String)
  task_assignments : List (String × TaskAssignment)
  deriving DecidableEq, Repr

/-- orchestration.py `IntelligentRouter.create_execution_plan`: one
`select_agent_for_task` call per subtask, in order, each receiving its
own model response from the oracle indexed by subtask position. -/
def create_execution_plan (selOracle : Nat → Option SelectionJson)
    (decomposition : TaskDecomposition) : Except PyError ExecutionPlan := do
  let assignments ← (decomposition.subtasks.enum).foldlM
    (fun acc p => do
      let (agent, confidence) ← select_agent_for_task (selOracle p.1) p.2 none
      Except.ok (dict_set acc p.2.id
        { agent := agent.name, confidence := confidence, task := p.2 }))
    []
  Except.ok
    { parallel_groups := decomposition.parallel_groups
      task_assignments := assignments }

/-- Body of the inner loop of
`PrincipalRouterAgent._execute_task_plan`: look up the assignment of
one task id (`KeyError` on an id missing from the plan), run
`coordinate_agent_execution` at depth 0 on the current manager state,
store the result dict under the task id. The fuel
`max_depth.toNat + 1` always suffices (the C1 theorem below), so the
fuel-exhausted branch is unreachable. -/
def execute_one_task (plan : ExecutionPlan)
    (delegOracle : String → Int → Option DelegationResponseData)
    (execR : String → SubTask → String)
    (acc : List (String × ExecRecord) × DelegationManager)
    (task_id : String) :
    Except PyError (List (String × ExecRecord) × DelegationManager) := do
  let assignment ← py_get (dict_lookup plan.task_assignments task_id) task_id
  match coordinate_fuel (acc.2.max_depth.toNat + 1) acc.2
      (delegOracle task_id) execR assignment.agent assignment.task 0 with
  | some (Except.ok record, mgr') =>
    Except.ok (dict_set acc.1 task_id record, mgr')
  | some (Except.error e, _) => Except.error e
  | none => Except.error (PyError.valueError "recursion fuel exhausted")

/-- One parallel group of `_execute_task_plan`: its task ids executed
sequentially in order. -/
def execute_group (plan : ExecutionPlan)
    (delegOracle : String → Int → Option DelegationResponseData)
    (execR : String → SubTask → String)
    (acc : List (String × ExecRecord) × DelegationManager)
    (group : List String) :
    Except PyError (List (String × ExecRecord) × DelegationManager) :=
  group.foldlM (execute_one_task plan delegOracle execR) acc

/-- orchestration.py `PrincipalRouterAgent._execute_task_plan`:
sequential iteration over the parallel groups and their task ids with
the manager state threaded through. -/
def execute_task_plan (mgr : DelegationManager)
    (delegOracle : String → Int → Option DelegationResponseData)
    (execR : String → SubTask → String) (plan : ExecutionPlan) :
    Except PyError (List (String × ExecRecord) × DelegationManager) :=
  plan.parallel_groups.foldlM (execute_group plan delegOracle execR)
    ([], mgr)

/-- orchestration.py `PrincipalRouterAgent._synthesize_results`: builds
the synthesis prompt from every task result (the `next(...)` lookup of
the task description raises `StopIteration` when the id is not among
the subtasks) and returns the synthesis model response, an oracle of
the prompt. -/
def synthesize_results (synth : String → String) (original_query : String)
    (decomposition : TaskDecomposition)
    (results : List (String × ExecRecord)) : Except PyError String := do
  let prompt ← results.foldlM
    (fun acc p => do
      let task_desc ← (match
          decomposition.subtasks.find? (fun t => t.id == p.1) with
        | some t => Except.ok t.description
        | none => Except.error PyError.stopIteration)
      Except.ok (acc ++ "\n" ++ p.1 ++ " (" ++ task_desc ++ ") - Agent: "
        ++ p.2.agent ++ ":\n" ++ p.2.result ++ "\n"))
    ("Synthesize these task results into a cohesive response:\n        \nOriginal query: "
      ++ original_query ++ "\n\nTask results:\n")
  Except.ok (synth prompt)

/-- Result dict of `orchestrate_multi_agent_workflow`: its
`delegation_history` entry is the delegation manager's list at the end
of the run. -/
structure OrchestrationRecord where
  response : String
  decomposition : TaskDecomposition
  execution_plan : ExecutionPlan
  task_results : List (String × ExecRecord)
  delegation_history : List DelegationDecision
  deriving DecidableEq, Repr

/-- orchestration.py `PrincipalRouterAgent.orchestrate_multi_agent_workflow`:
analyze, plan, execute, synthesize. The four kinds of model responses
and the crew execution are explicit oracles; the initial delegation
manager state is a parameter (the source reuses one manager across runs
of the same `PrincipalRouterAgent`). -/
def orchestrate_multi_agent_workflow (mgr : DelegationManager)
    (analysisResponse : Option AnalysisJson)
    (selOracle : Nat → Option SelectionJson)
    (delegOracle : String → Int → Option DelegationResponseData)
    (execR : String → SubTask → String) (synth : String → String)
    (query : String) : Except PyError OrchestrationRecord := do
  let decomposition ← decompose_user_query query analysisResponse
  let execution_plan ← create_execution_plan selOracle decomposition
  let (all_results, mgr') ← execute_task_plan mgr delegOracle execR
    execution_plan
  let final_response ← synthesize_results synth query decomposition
    all_results
  Except.ok
    { response := final_response
      decomposition := decomposition
      execution_plan := execution_plan
      task_results := all_results
      delegation_history := mgr'.delegation_history }

/-- Definition following the literal words of the spec sentence for C3:
the arithmetic mean of the proficiencies of just the required
capabilities the agent actually possesses (0 when none is matched).
This is the reading under which the denominator is the number of
matched capabilities, to be compared with `get_capability_score`. -/
def spec_mean_of_matched (a : BaseSpecializedAgent)
    (required : List String) : ℚ :=
  let matched := required.filterMap
    (fun r => (dict_lookup a.capabilities r).map (fun c => c.proficiency))
  if matched = [] then 0 else matched.sum / (matched.length : ℚ)

/-- Sample concrete subtask used by witnesses. -/
def sample_task : SubTask :=
  { id := "task_1"
    description := "What is my current account balance"
    type := TaskType.general
    complexity := 3
    dependencies := []
    required_tools := []
    required_capabilities := [] }

@[simp]
theorem except_bind_ok {ε α β : Type} (a : α) (f : α → Except ε β) :
    (Except.ok a : Except ε α) >>= f = f a := rfl

@[simp]
theorem except_bind_error {ε α β : Type} (e : ε) (f : α → Except ε β) :
    (Except.error e : Except ε α) >>= f = Except.error e := rfl

@[simp]
theorem except_pure_eq {ε α : Type} (a : α) :
    (pure a : Except ε α) = Except.ok a := rfl

/-- The `foldl` accumulation of `get_capability_score` computes
`init + matched_sum`. -/
theorem foldl_matched_sum (a : BaseSpecializedAgent) :
    ∀ (l : List String) (init : ℚ),
      l.foldl (fun total req_cap =>
        match dict_lookup a.capabilities req_cap with
        | some cap => total + cap.proficiency
        | none => total) init = init + matched_sum a l := by
  intro l
  induction l with
  | nil => intro init; simp [matched_sum]
  | cons x xs ih =>
    intro init
    rw [List.foldl_cons]
    cases h : dict_lookup a.capabilities x with
    | none => simp only [h]; rw [ih]; simp [matched_sum, h]
    | some cap => simp only [h]; rw [ih]; simp [matched_sum, h]; ring

/-- A successful `dict_lookup` finds an entry of the list. -/
theorem dict_lookup_mem {α : Type} :
    ∀ (d : List (String × α)) (k : String) (v : α),
      dict_lookup d k = some v → (k, v) ∈ d := by
  intro d
  induction d with
  | nil => intro k v h; simp [dict_lookup] at h
  | cons p rest ih =>
    intro k v h
    obtain ⟨k1, v1⟩ := p
    rw [dict_lookup] at h
    by_cases hk : k1 = k
    · rw [if_pos hk] at h
      injection h with hv
      subst hk
      subst hv
      exact List.mem_cons_self _ _
    · rw [if_neg hk] at h
      exact List.mem_cons_of_mem _ (ih k v h)

/-- The matched sum is nonnegative when all proficiencies are. -/
theorem matched_sum_nonneg (a : BaseSpecializedAgent) (l : List String)
    (h : ∀ p ∈ a.capabilities, 0 ≤ p.2.proficiency) :
    0 ≤ matched_sum a l := by
  induction l with
  | nil => simp [matched_sum]
  | cons x xs ih =>
    rw [matched_sum]
    have h1 : (0:ℚ) ≤ (match dict_lookup a.capabilities x with
      | some cap => cap.proficiency
      | none => 0) := by
      cases hx : dict_lookup a.capabilities x with
      | none => simp
      | some cap => simpa using h (x, cap) (dict_lookup_mem _ _ _ hx)
    linarith

/-- The matched sum is at most the number of required capabilities when
all proficiencies are at most 1. -/
theorem matched_sum_le_length (a : BaseSpecializedAgent) (l : List String)
    (h : ∀ p ∈ a.capabilities, p.2.proficiency ≤ 1) :
    matched_sum a l ≤ (l.length : ℚ) := by
  induction l with
  | nil => simp [matched_sum]
  | cons x xs ih =>
    rw [matched_sum]
    have h1 : (match dict_lookup a.capabilities x with
      | some cap => cap.proficiency
      | none => 0) ≤ (1:ℚ) := by
      cases hx : dict_lookup a.capabilities x with
      | none => simp
      | some cap => simpa using h (x, cap) (dict_lookup_mem _ _ _ hx)
    simp only [List.length_cons]
    push_cast
    linarith

/-- The matched sum vanishes when the agent has none of the required
capabilities. -/
theorem matched_sum_eq_zero (a : BaseSpecializedAgent) (l : List String)
    (h : ∀ r ∈ l, dict_lookup a.capabilities r = none) :
    matched_sum a l = 0 := by
  induction l with
  | nil => simp [matched_sum]
  | cons x xs ih =>
    rw [matched_sum, h x (List.mem_cons_self x xs)]
    simp
    exact ih (fun r hr => h r (List.mem_cons_of_mem _ hr))

/-- On a non-empty requirement list, `get_capability_score` is the
matched sum divided by the number of required capabilities. -/
theorem get_capability_score_eq (a : BaseSpecializedAgent)
    (required : List String) (h : required ≠ []) :
    get_capability_score a required =
      matched_sum a required / (required.length : ℚ) := by
  rw [get_capability_score, if_neg h, foldl_matched_sum]
  simp

/-- C3, counterexample: for the research specialist and the required
list `["web_research", "quantum_chemistry"]` (one matched capability of
proficiency 19/20, one unmatched), `get_capability_score` returns
`19/40` — the matched sum divided by the number of *required*
capabilities — while the mean of the matched-capability proficiencies
is `19/20`; the two differ, so the claimed formula is not what the code
computes. -/
theorem C3_counterexample_mean_of_matched :
    get_capability_score research_specialist
        ["web_research", "quantum_chemistry"] = 19/40 ∧
    spec_mean_of_matched research_specialist
        ["web_research", "quantum_chemistry"] = 19/20 ∧
    get_capability_score research_specialist
        ["web_research", "quantum_chemistry"] ≠
      spec_mean_of_matched research_specialist
        ["web_research", "quantum_chemistry"] := by
  refine ⟨?_, ?_, ?_⟩
  · simp [get_capability_score, research_specialist, init_agent, dict_set,
      dict_lookup]
    norm_num
  · simp [spec_mean_of_matched, research_specialist, init_agent, dict_set,
      dict_lookup]
    norm_num
  · simp [get_capability_score, spec_mean_of_matched, research_specialist,
      init_agent, dict_set, dict_lookup]
    norm_num

/-- C3, amended: for every agent whose proficiencies lie in `[0, 1]`
and every non-empty required-capability list, `get_capability_score`
returns the sum of the matched-capability proficiencies divided by the
total number of required capabilities; the returned value lies in
`[0, 1]`, and it is 0 when the agent possesses none of the listed
capabilities. -/
theorem C3_amended_score_formula (a : BaseSpecializedAgent)
    (required : List String) (hne : required ≠ [])
    (hrange : ∀ p ∈ a.capabilities,
      0 ≤ p.2.proficiency ∧ p.2.proficiency ≤ 1) :
    get_capability_score a required =
        matched_sum a required / (required.length : ℚ) ∧
    0 ≤ get_capability_score a required ∧
    get_capability_score a required ≤ 1 ∧
    ((∀ r ∈ required, dict_lookup a.capabilities r = none) →
      get_capability_score a required = 0) := by
  have heq := get_capability_score_eq a required hne
  have hlen : (0:ℚ) < (required.length : ℚ) := by
    exact_mod_cast List.length_pos.mpr hne
  refine ⟨heq, ?_, ?_, ?_⟩
  · rw [heq]
    exact div_nonneg
      (matched_sum_nonneg a required (fun p hp => (hrange p hp).1))
      (le_of_lt hlen)
  · rw [heq, div_le_one hlen]
    exact matched_sum_le_length a required (fun p hp => (hrange p hp).2)
  · intro hnone
    rw [heq, matched_sum_eq_zero a required hnone, zero_div]

/-- Witness for `C3_amended_score_formula` at the research specialist
and the required list `["fact_checking"]`. -/
theorem C3_amended_witness :
    get_capability_score research_specialist ["fact_checking"] =
        matched_sum research_specialist ["fact_checking"] /
          ((["fact_checking"] : List String).length : ℚ) ∧
    0 ≤ get_capability_score research_specialist ["fact_checking"] ∧
    get_capability_score research_specialist ["fact_checking"] ≤ 1 ∧
    ((∀ r ∈ ["fact_checking"],
        dict_lookup research_specialist.capabilities r = none) →
      get_capability_score research_specialist ["fact_checking"] = 0) :=
  C3_amended_score_formula research_specialist ["fact_checking"]
    (List.cons_ne_nil _ _)
    (by simp [research_specialist, init_agent, dict_set]; norm_num)

/-- C4: for every agent and every required-capability list,
`get_capability_score` returns exactly 0.5 when the list is empty, and
otherwise the sum of the agent's proficiencies over the required
capabilities it possesses (`matched_sum`) divided by the total number
of required capabilities. -/
theorem C4_capability_score_formula (a : BaseSpecializedAgent)
    (required : List String) :
    get_capability_score a required =
      if required = [] then 0.5
      else matched_sum a required / (required.length : ℚ) := by
  by_cases h : required = []
  · rw [if_pos h, get_capability_score, if_pos h]
  · rw [if_neg h]
    exact get_capability_score_eq a required h

/-- C5: for every manager state, agent, task, model response and depth
at least `max_depth`, `evaluate_delegation_need` returns `none` and
leaves the manager (and so the delegation history) unchanged; the
response argument is universally quantified and absent from the result,
so the outcome is independent of the model — the guard returns before
the LLM call in the source. -/
theorem C5_depth_guard_returns_none (mgr : DelegationManager)
    (response : Option DelegationResponseData) (agent : BaseSpecializedAgent)
    (task : SubTask) (depth : Int) (h : depth ≥ mgr.max_depth) :
    evaluate_delegation_need mgr response agent task depth = (none, mgr) := by
  rw [evaluate_delegation_need, if_pos h]

/-- Witness for `C5_depth_guard_returns_none` at depth 5 = max_depth
with a response that asks to delegate. -/
theorem C5_witness :
    evaluate_delegation_need ⟨5, []⟩
      (some ⟨true, some "data_analyst", "needs analysis", 0.8⟩)
      research_specialist sample_task 5 = (none, ⟨5, []⟩) :=
  C5_depth_guard_returns_none ⟨5, []⟩ _ _ _ 5 (le_refl 5)

/-- C6: for every query, when the model response to the analysis call
is not valid JSON, `decompose_user_query` does not raise and returns
the fallback decomposition: exactly one subtask whose description is
the original query and whose type is the `general` tag. -/
theorem C6_invalid_json_fallback (query : String) :
    decompose_user_query query none = Except.ok
      { original_query := query
        subtasks := [{
          id := "task_1"
          description := query
          type := TaskType.general
          complexity := 3
          dependencies := []
          required_tools := ["search_web"]
          required_capabilities := ["web_research"] }]
        execution_order := ["task_1"]
        parallel_groups := [["task_1"]] } := rfl

/-- A well-formed analysis response whose `subtasks` array is empty. -/
def empty_subtasks_response : AnalysisJson :=
  { subtasks := some [], execution_order := some [], parallel_groups := some [] }

/-- C2, counterexample: a valid-JSON model response with an empty
`subtasks` array makes `decompose_user_query` return successfully a
`TaskDecomposition` whose `subtasks` list is empty — the parse-failure
fallback does not fire, so the non-emptiness claimed for every possible
model response fails. -/
theorem C2_counterexample_empty_subtasks :
    decompose_user_query "q" (some empty_subtasks_response) =
      Except.ok (TaskDecomposition.mk "q" [] [] []) := rfl

/-- The subtask-construction loop yields one `SubTask` per response
entry. -/
theorem build_subtasks_length :
    ∀ (l : List SubTaskJson) (l' : List SubTask),
      build_subtasks l = Except.ok l' → l'.length = l.length := by
  intro l
  induction l with
  | nil =>
    intro l' h
    rw [build_subtasks] at h
    injection h with h
    rw [← h]
    rfl
  | cons st rest ih =>
    intro l' h
    rw [build_subtasks] at h
    cases hf : build_subtask st with
    | error e => rw [hf] at h; simp at h
    | ok first =>
      rw [hf] at h
      simp only [except_bind_ok] at h
      cases ht : build_subtasks rest with
      | error e => rw [ht] at h; simp at h
      | ok tail =>
        rw [ht] at h
        simp only [except_bind_ok, except_pure_eq] at h
        injection h with h
        rw [← h]
        simp [ih tail ht]

/-- C2, amended: for every query, `decompose_user_query` returns a
decomposition with exactly one subtask when the response fails JSON
parsing (the fallback); on a successfully parsed response it returns
exactly one `SubTask` per entry of the response's `subtasks` array, so
the result is non-empty iff that array is — non-emptiness is not
guaranteed for every possible model response
(`C2_counterexample_empty_subtasks`). -/
theorem C2_amended_nonempty_only_on_fallback (query : String) :
    (∃ d, decompose_user_query query none = Except.ok d ∧
      d.subtasks.length = 1) ∧
    (∀ (resp : AnalysisJson) (d : TaskDecomposition),
      decompose_user_query query (some resp) = Except.ok d →
      ∃ l, resp.subtasks = some l ∧ d.subtasks.length = l.length) := by
  constructor
  · exact ⟨_, C6_invalid_json_fallback query, rfl⟩
  · intro resp d h
    rw [decompose_user_query] at h
    cases hs : resp.subtasks with
    | none => rw [hs] at h; simp [py_get] at h
    | some l =>
      rw [hs] at h
      simp only [py_get, except_bind_ok] at h
      cases hb : build_subtasks l with
      | error e => rw [hb] at h; simp at h
      | ok subtasks =>
        rw [hb] at h
        simp only [except_bind_ok] at h
        cases he : resp.execution_order with
        | none => rw [he] at h; simp [py_get] at h
        | some eo =>
          rw [he] at h
          simp only [py_get, except_bind_ok, except_pure_eq] at h
          injection h with h
          exact ⟨l, rfl, by rw [← h]; exact build_subtasks_length l subtasks hb⟩

/-- Witness for `C2_amended_nonempty_only_on_fallback` at the
empty-subtasks response. -/
theorem C2_amended_witness :
    ∃ l, empty_subtasks_response.subtasks = some l ∧
      (TaskDecomposition.mk "q" [] [] []).subtasks.length = l.length :=
  (C2_amended_nonempty_only_on_fallback "q").2 empty_subtasks_response
    (TaskDecomposition.mk "q" [] [] []) rfl

/-- The depth guard of the delegation manager is preserved by
`evaluate_delegation_need`: the returned manager keeps `max_depth`. -/
theorem evaluate_max_depth_eq (mgr : DelegationManager)
    (response : Option DelegationResponseData) (agent : BaseSpecializedAgent)
    (task : SubTask) (depth : Int) :
    ((evaluate_delegation_need mgr response agent task depth).2).max_depth =
      mgr.max_depth := by
  rw [evaluate_delegation_need]
  split
  · rfl
  · dsimp only
    split <;> rfl

/-- A returned delegation decision implies the depth guard passed and
the manager state is exactly the old one with the decision appended at
the end of the history. -/
theorem evaluate_some_eq (mgr : DelegationManager)
    (response : Option DelegationResponseData) (agent : BaseSpecializedAgent)
    (task : SubTask) (depth : Int) (d : DelegationDecision)
    (mgr' : DelegationManager)
    (h : evaluate_delegation_need mgr response agent task depth =
      (some d, mgr')) :
    depth < mgr.max_depth ∧
    mgr' = { mgr with
      delegation_history := mgr.delegation_history ++ [d] } := by
  rw [evaluate_delegation_need] at h
  by_cases hd : depth ≥ mgr.max_depth
  · rw [if_pos hd] at h
    simp at h
  · rw [if_neg hd] at h
    constructor
    · omega
    · dsimp only at h
      split at h
      · injection h with h1 h2
        injection h1 with h1
        rw [← h2, ← h1]
      · simp at h

/-- `evaluate_delegation_need` only ever extends the delegation
history. -/
theorem evaluate_hist_suffix (mgr : DelegationManager)
    (response : Option DelegationResponseData) (agent : BaseSpecializedAgent)
    (task : SubTask) (depth : Int) :
    ∃ s, (evaluate_delegation_need mgr response agent task depth).2.delegation_history
      = mgr.delegation_history ++ s := by
  rw [evaluate_delegation_need]
  split
  · exact ⟨[], by simp⟩
  · dsimp only
    split
    · exact ⟨_, rfl⟩
    · exact ⟨[], by simp⟩

/-- Fuel `(max_depth - depth).toNat + 1` always suffices for
`coordinate_fuel`: every accepted delegation strictly increases `depth`
toward `max_depth`, past which `evaluate_delegation_need` returns
`none`. -/
theorem coordinate_fuel_isSome :
    ∀ (fuel : Nat) (mgr : DelegationManager)
      (oracle : Int → Option DelegationResponseData)
      (execR : String → SubTask → String) (agent_name : String)
      (task : SubTask) (depth : Int),
      (mgr.max_depth - depth).toNat < fuel →
      (coordinate_fuel fuel mgr oracle execR agent_name task depth).isSome
        = true := by
  intro fuel
  induction fuel with
  | zero =>
    intro mgr oracle execR agent_name task depth h
    exact absurd h (Nat.not_lt_zero _)
  | succ n ih =>
    intro mgr oracle execR agent_name task depth h
    rw [coordinate_fuel]
    cases hl : dict_lookup AGENT_REGISTRY agent_name with
    | none => rfl
    | some agent =>
      dsimp only
      cases he : evaluate_delegation_need mgr (oracle depth) agent task depth
        with
      | mk deleg mgr' =>
        cases deleg with
        | none => rfl
        | some d =>
          dsimp only
          by_cases hreg : (dict_lookup AGENT_REGISTRY d.to_agent).isSome = true
          · rw [if_pos hreg]
            apply ih
            obtain ⟨hlt, hm⟩ := evaluate_some_eq _ _ _ _ _ _ _ he
            have hmx : mgr'.max_depth = mgr.max_depth := by rw [hm]
            omega
          · rw [if_neg hreg]
            rfl

/-- C1: for every initial manager state with nonnegative `max_depth`,
every delegation-response oracle, crew-execution oracle, agent name and
task, the recursive `coordinate_agent_execution` started at depth 0
completes within `max_depth + 1` nested calls: with that much fuel the
fueled embedding never exhausts. Each accepted delegation recurses at
exactly `depth + 1`, and none is possible once `depth` reaches
`max_depth`, which is what the inductive bound rests on
(`coordinate_fuel_isSome`). -/
theorem C1_execute_terminates_within_bound (mgr : DelegationManager)
    (oracle : Int → Option DelegationResponseData)
    (execR : String → SubTask → String) (agent_name : String)
    (task : SubTask) (h : 0 ≤ mgr.max_depth) :
    (coordinate_fuel (mgr.max_depth.toNat + 1) mgr oracle execR agent_name
      task 0).isSome = true :=
  coordinate_fuel_isSome _ mgr oracle execR agent_name task 0 (by omega)

/-- Witness for `C1_execute_terminates_within_bound`: max_depth 6 and
an oracle that always asks to delegate to a registered agent. -/
theorem C1_witness :
    (coordinate_fuel ((6 : Int).toNat + 1) ⟨6, []⟩
      (fun _ => some ⟨true, some "data_analyst", "needs analysis", 0.8⟩)
      (fun n _ => n ++ " done") "research_specialist" sample_task 0).isSome
        = true :=
  C1_execute_terminates_within_bound ⟨6, []⟩ _ _ _ _ (by norm_num)

/-- C7: when the delegation step returns a decision whose target agent
is not in the static registry, `coordinate_agent_execution` ignores it:
the run result is exactly the current-agent execution (no recursive
call consumes fuel — one unit suffices), and on success the result
record carries the original agent's name and the unchanged depth. -/
theorem C7_unknown_delegate_ignored (fuel : Nat) (mgr : DelegationManager)
    (oracle : Int → Option DelegationResponseData)
    (execR : String → SubTask → String) (agent_name : String)
    (agent : BaseSpecializedAgent) (task : SubTask) (depth : Int)
    (d : DelegationDecision)
    (hagent : dict_lookup AGENT_REGISTRY agent_name = some agent)
    (hdel : (evaluate_delegation_need mgr (oracle depth) agent task depth).1
      = some d)
    (hunknown : dict_lookup AGENT_REGISTRY d.to_agent = none) :
    coordinate_fuel (fuel + 1) mgr oracle execR agent_name task depth =
      some (run_current_agent execR agent_name agent task depth,
        (evaluate_delegation_need mgr (oracle depth) agent task depth).2) ∧
    (∀ record, run_current_agent execR agent_name agent task depth =
        Except.ok record →
      record.agent = agent.name ∧ record.delegation_depth = depth) := by
  constructor
  · rw [coordinate_fuel, hagent]
    dsimp only
    cases he : evaluate_delegation_need mgr (oracle depth) agent task depth
      with
    | mk deleg mgr' =>
      rw [he] at hdel
      cases deleg with
      | none => simp at hdel
      | some d' =>
        injection hdel with hdel
        subst hdel
        dsimp only
        rw [if_neg (by rw [hunknown]; simp)]
  · intro record hrec
    rw [run_current_agent] at hrec
    split at hrec
    · injection hrec with hrec
      rw [← hrec]
      exact ⟨rfl, rfl⟩
    · simp at hrec

/-- Delegation-response oracle for the C7 witness: always asks to
delegate to the unregistered name `ghost_agent`. -/
def c7_oracle : Int → Option DelegationResponseData :=
  fun _ => some ⟨true, some "ghost_agent", "needs expertise", 0.7⟩

/-- Crew-execution oracle for the C7 and C9 witnesses. -/
def c7_execR : String → SubTask → String := fun n _ => n ++ " done"

/-- The decision recorded in the C7 witness run. -/
def c7_decision : DelegationDecision :=
  ⟨"research_specialist", "ghost_agent", sample_task, "needs expertise", 0.7⟩

/-- Witness for `C7_unknown_delegate_ignored`: the research specialist
receives a delegation decision targeting `ghost_agent`. -/
theorem C7_witness :
    coordinate_fuel 1 ⟨5, []⟩ c7_oracle c7_execR "research_specialist"
        sample_task 0 =
      some (run_current_agent c7_execR "research_specialist"
          research_specialist sample_task 0,
        (evaluate_delegation_need ⟨5, []⟩ (c7_oracle 0) research_specialist
          sample_task 0).2) ∧
    (∀ record, run_current_agent c7_execR "research_specialist"
        research_specialist sample_task 0 = Except.ok record →
      record.agent = research_specialist.name ∧
      record.delegation_depth = 0) :=
  C7_unknown_delegate_ignored 0 ⟨5, []⟩ c7_oracle c7_execR
    "research_specialist" research_specialist sample_task 0 c7_decision
    rfl rfl rfl

/-- C8, counterexample: `select_agent_for_task` called with zero
candidate agents and a well-formed model response naming a pool agent
returns that agent normally — no empty-candidate error is raised, so
the claim that an error is raised for every model response fails. -/
theorem C8_counterexample_no_empty_candidate_error :
    select_agent_for_task
      (some { agent := some "data_analyst", confidence := some 0.9 })
      sample_task (some []) = Except.ok (data_analyst, 0.9) := rfl

/-- C8, amended: with zero candidate agents, only the fallback path
raises: whenever the model response fails to parse or lacks the
`agent`/`confidence` keys, `select_agent_for_task` raises `ValueError`
from `max()` on the empty candidate sequence; a well-formed response
naming a pool agent is returned normally
(`C8_counterexample_no_empty_candidate_error`), so there is no defined
empty-candidate error covering every model response. -/
theorem C8_amended_fallback_raises (response : Option SelectionJson)
    (task : SubTask) (hparse : parse_selection response = none) :
    select_agent_for_task response task (some []) =
      Except.error (PyError.valueError "max() arg is an empty sequence") := by
  rw [select_agent_for_task]
  rw [hparse]
  rfl

/-- Witness for `C8_amended_fallback_raises` at an unparseable
response. -/
theorem C8_amended_witness :
    select_agent_for_task none sample_task (some []) =
      Except.error (PyError.valueError "max() arg is an empty sequence") :=
  C8_amended_fallback_raises none sample_task rfl

/-- C10: when the selection response is valid JSON with both `agent`
and `confidence` keys but the named agent is not in the pool,
`select_agent_for_task` raises `KeyError` from the pool lookup — the
fallback covers only JSON-decode and missing-key failures, so it does
not fire here. -/
theorem C10_unknown_agent_keyerror (response : Option SelectionJson)
    (task : SubTask) (name : String) (c : ℚ)
    (hparse : parse_selection response = some (name, c))
    (hpool : dict_lookup AGENT_REGISTRY name = none) :
    select_agent_for_task response task none =
      Except.error (PyError.keyError name) := by
  rw [select_agent_for_task]
  rw [hparse]
  have hscores :
      ∃ s, compute_agent_scores task (AGENT_REGISTRY.map (fun p => p.1))
        = Except.ok s :=
    ⟨_, rfl⟩
  obtain ⟨s, hs⟩ := hscores
  simp only [Option.getD]
  rw [hs]
  simp only [except_bind_ok]
  rw [pool_lookup, hpool]
  rfl

/-- Witness for `C10_unknown_agent_keyerror` at a well-formed response
naming the unregistered `ghost_agent`. -/
theorem C10_witness :
    select_agent_for_task
      (some { agent := some "ghost_agent", confidence := some 0.9 })
      sample_task none = Except.error (PyError.keyError "ghost_agent") :=
  C10_unknown_agent_keyerror
    (some { agent := some "ghost_agent", confidence := some 0.9 })
    sample_task "ghost_agent" 0.9 rfl rfl

/-- `coordinate_agent_execution` only ever extends the delegation
history: every nested call appends, nothing is removed. -/
theorem coordinate_hist_suffix :
    ∀ (fuel : Nat) (mgr : DelegationManager)
      (oracle : Int → Option DelegationResponseData)
      (execR : String → SubTask → String) (agent_name : String)
      (task : SubTask) (depth : Int) (res : Except PyError ExecRecord)
      (mgr' : DelegationManager),
      coordinate_fuel fuel mgr oracle execR agent_name task depth =
        some (res, mgr') →
      ∃ s, mgr'.delegation_history = mgr.delegation_history ++ s := by
  intro fuel
  induction fuel with
  | zero =>
    intro mgr oracle execR agent_name task depth res mgr' h
    rw [coordinate_fuel] at h
    simp at h
  | succ n ih =>
    intro mgr oracle execR agent_name task depth res mgr' h
    rw [coordinate_fuel] at h
    cases hl : dict_lookup AGENT_REGISTRY agent_name with
    | none =>
      rw [hl] at h
      injection h with h
      injection h with h1 h2
      rw [← h2]
      exact ⟨[], by simp⟩
    | some agent =>
      rw [hl] at h
      dsimp only at h
      cases he : evaluate_delegation_need mgr (oracle depth) agent task depth
        with
      | mk deleg mgr1 =>
        rw [he] at h
        obtain ⟨s0, hs0⟩ : ∃ s, mgr1.delegation_history =
            mgr.delegation_history ++ s := by
          have := evaluate_hist_suffix mgr (oracle depth) agent task depth
          rw [he] at this
          exact this
        cases deleg with
        | none =>
          dsimp only at h
          injection h with h
          injection h with h1 h2
          rw [← h2]
          exact ⟨s0, hs0⟩
        | some d =>
          dsimp only at h
          by_cases hreg : (dict_lookup AGENT_REGISTRY d.to_agent).isSome = true
          · rw [if_pos hreg] at h
            obtain ⟨s1, hs1⟩ := ih mgr1 oracle execR d.to_agent task
              (depth + 1) res mgr' h
            exact ⟨s0 ++ s1, by rw [hs1, hs0, List.append_assoc]⟩
          · rw [if_neg hreg] at h
            injection h with h
            injection h with h1 h2
            rw [← h2]
            exact ⟨s0, hs0⟩

/-- A `foldlM` over `Except` preserves any reflexive transitive
relation preserved by each successful step. -/
theorem foldlM_rel {α β : Type} {R : β → β → Prop} (hrefl : ∀ b, R b b)
    (htrans : ∀ x y z, R x y → R y z → R x z)
    (f : β → α → Except PyError β)
    (hstep : ∀ b a b', f b a = Except.ok b' → R b b') :
    ∀ (l : List α) (b b' : β),
      List.foldlM f b l = Except.ok b' → R b b' := by
  intro l
  induction l with
  | nil =>
    intro b b' h
    rw [List.foldlM_nil] at h
    injection h with h
    rw [← h]
    exact hrefl b
  | cons a t ih =>
    intro b b' h
    rw [List.foldlM_cons] at h
    cases hf : f b a with
    | error e => rw [hf] at h; simp at h
    | ok b1 =>
      rw [hf] at h
      simp only [except_bind_ok] at h
      exact htrans _ _ _ (hstep b a b1 hf) (ih b1 b' h)

/-- One inner-loop step of `_execute_task_plan` only ever extends the
delegation history. -/
theorem execute_one_task_hist (plan : ExecutionPlan)
    (delegOracle : String → Int → Option DelegationResponseData)
    (execR : String → SubTask → String)
    (acc acc' : List (String × ExecRecord) × DelegationManager)
    (task_id : String)
    (h : execute_one_task plan delegOracle execR acc task_id =
      Except.ok acc') :
    ∃ s, acc'.2.delegation_history = acc.2.delegation_history ++ s := by
  rw [execute_one_task] at h
  cases ha : dict_lookup plan.task_assignments task_id with
  | none => rw [ha] at h; simp [py_get] at h
  | some assignment =>
    rw [ha] at h
    simp only [py_get, except_bind_ok] at h
    cases hc : coordinate_fuel (acc.2.max_depth.toNat + 1) acc.2
        (delegOracle task_id) execR assignment.agent assignment.task 0 with
    | none => rw [hc] at h; simp at h
    | some p =>
      rw [hc] at h
      obtain ⟨res, mgr'⟩ := p
      cases res with
      | error e => simp at h
      | ok record =>
        simp only [] at h
        injection h with h
        obtain ⟨s, hs⟩ := coordinate_hist_suffix _ _ _ _ _ _ _ _ _ hc
        exact ⟨s, by rw [← h]; exact hs⟩

/-- `_execute_task_plan` only ever extends the delegation history
across the whole run. -/
theorem execute_task_plan_hist (mgr : DelegationManager)
    (delegOracle : String → Int → Option DelegationResponseData)
    (execR : String → SubTask → String) (plan : ExecutionPlan)
    (results : List (String × ExecRecord)) (mgr' : DelegationManager)
    (h : execute_task_plan mgr delegOracle execR plan =
      Except.ok (results, mgr')) :
    ∃ s, mgr'.delegation_history = mgr.delegation_history ++ s := by
  have hmain := foldlM_rel
    (R := fun x y : List (String × ExecRecord) × DelegationManager =>
      ∃ s, y.2.delegation_history = x.2.delegation_history ++ s)
    (fun b => ⟨[], by simp⟩)
    (fun x y z hxy hyz => by
      obtain ⟨s1, h1⟩ := hxy
      obtain ⟨s2, h2⟩ := hyz
      exact ⟨s1 ++ s2, by rw [h2, h1, List.append_assoc]⟩)
    (execute_group plan delegOracle execR)
    (fun b a b' hstep => by
      exact foldlM_rel
        (R := fun x y : List (String × ExecRecord) × DelegationManager =>
          ∃ s, y.2.delegation_history = x.2.delegation_history ++ s)
        (fun b => ⟨[], by simp⟩)
        (fun x y z hxy hyz => by
          obtain ⟨s1, h1⟩ := hxy
          obtain ⟨s2, h2⟩ := hyz
          exact ⟨s1 ++ s2, by rw [h2, h1, List.append_assoc]⟩)
        (execute_one_task plan delegOracle execR)
        (fun b a b' hs => execute_one_task_hist plan delegOracle execR
          b b' a hs)
        a b b' hstep)
    plan.parallel_groups ([], mgr) (results, mgr') h
  exact hmain

/-- C9: (1) every delegation decision `evaluate_delegation_need`
returns is appended verbatim — with its `from_agent`, `to_agent`,
`reason` and `confidence` fields untouched — at the end of the
delegation history; (2) every `coordinate_agent_execution` call only
extends the history; (3) the `delegation_history` entry of a record
returned by `orchestrate_multi_agent_workflow` extends the initial
history — nothing is ever removed, so every decision appended during
the run is present, in append order, in the returned record. -/
theorem C9_delegation_history_round_trip :
    (∀ (mgr : DelegationManager) (response : Option DelegationResponseData)
      (agent : BaseSpecializedAgent) (task : SubTask) (depth : Int)
      (d : DelegationDecision) (mgr' : DelegationManager),
      evaluate_delegation_need mgr response agent task depth =
        (some d, mgr') →
      mgr'.delegation_history = mgr.delegation_history ++ [d]) ∧
    (∀ (fuel : Nat) (mgr : DelegationManager)
      (oracle : Int → Option DelegationResponseData)
      (execR : String → SubTask → String) (agent_name : String)
      (task : SubTask) (depth : Int) (res : Except PyError ExecRecord)
      (mgr' : DelegationManager),
      coordinate_fuel fuel mgr oracle execR agent_name task depth =
        some (res, mgr') →
      ∃ s, mgr'.delegation_history = mgr.delegation_history ++ s) ∧
    (∀ (mgr : DelegationManager) (analysisResponse : Option AnalysisJson)
      (selOracle : Nat → Option SelectionJson)
      (delegOracle : String → Int → Option DelegationResponseData)
      (execR : String → SubTask → String) (synth : String → String)
      (query : String) (record : OrchestrationRecord),
      orchestrate_multi_agent_workflow mgr analysisResponse selOracle
        delegOracle execR synth query = Except.ok record →
      ∃ appended, record.delegation_history =
        mgr.delegation_history ++ appended) := by
  refine ⟨?_, coordinate_hist_suffix, ?_⟩
  · intro mgr response agent task depth d mgr' h
    obtain ⟨-, hm⟩ := evaluate_some_eq mgr response agent task depth d mgr' h
    rw [hm]
  · intro mgr aResp selO dO execR synth query record h
    rw [orchestrate_multi_agent_workflow] at h
    cases hd : decompose_user_query query aResp with
    | error e => rw [hd] at h; simp at h
    | ok decomposition =>
      rw [hd] at h
      simp only [except_bind_ok] at h
      cases hp : create_execution_plan selO decomposition with
      | error e => rw [hp] at h; simp at h
      | ok plan =>
        rw [hp] at h
        simp only [except_bind_ok] at h
        cases hx : execute_task_plan mgr dO execR plan with
        | error e => rw [hx] at h; simp at h
        | ok pr =>
          rw [hx] at h
          obtain ⟨results, mgr'⟩ := pr
          simp only [except_bind_ok] at h
          cases hs : synthesize_results synth query decomposition results
            with
          | error e => rw [hs] at h; simp at h
          | ok resp =>
            rw [hs] at h
            simp only [except_bind_ok, except_pure_eq] at h
            injection h with h
            rw [← h]
            exact execute_task_plan_hist mgr dO execR plan results mgr' hx

/-- Initial manager state of the C9 witness run. -/
def c9_mgr : DelegationManager := ⟨5, []⟩

/-- Selection-response oracle of the C9 witness run. -/
def c9_selOracle : Nat → Option SelectionJson :=
  fun _ => some ⟨some "research_specialist", some 0.9⟩

/-- Delegation-response oracle of the C9 witness run: one delegation to
the data analyst at depth 0, none afterward. -/
def c9_delegOracle : String → Int → Option DelegationResponseData :=
  fun _ depth =>
    if depth = 0 then
      some ⟨true, some "data_analyst", "needs data analysis", 0.8⟩
    else none

/-- Synthesis oracle of the C9 witness run. -/
def c9_synth : String → String := fun _ => "final answer"

/-- Crew-execution oracle of the C9 witness run. -/
def c9_execR : String → SubTask → String := fun n _ => n ++ " done"

/-- The single (fallback) subtask of the C9 witness run. -/
def c9_task : SubTask :=
  { id := "task_1"
    description := "account balance"
    type := TaskType.general
    complexity := 3
    dependencies := []
    required_tools := ["search_web"]
    required_capabilities := ["web_research"] }

/-- The record the C9 witness run returns: the query falls back to one
generic subtask, the router assigns the research specialist, who
delegates once to the data analyst; that one decision is the returned
delegation history. -/
def c9_record : OrchestrationRecord :=
  { response := "final answer"
    decomposition :=
      { original_query := "account balance"
        subtasks := [c9_task]
        execution_order := ["task_1"]
        parallel_groups := [["task_1"]] }
    execution_plan :=
      { parallel_groups := [["task_1"]]
        task_assignments := [("task_1",
          { agent := "research_specialist", confidence := 0.9,
            task := c9_task })] }
    task_results := [("task_1",
      { agent := "data_analyst"
        task_id := "task_1"
        task_description := "account balance"
        result := "data_analyst done"
        tools_used := ["search_web"]
        delegation_depth := 1 })]
    delegation_history := [
      { from_agent := "research_specialist"
        to_agent := "data_analyst"
        task := c9_task
        reason := "needs data analysis"
        confidence := 0.8 }] }

/-- Witness for `C9_delegation_history_round_trip` on a complete
concrete orchestration run with one delegation. -/
theorem C9_witness :
    ∃ appended, c9_record.delegation_history =
      c9_mgr.delegation_history ++ appended :=
  C9_delegation_history_round_trip.2.2 c9_mgr none c9_selOracle
    c9_delegOracle c9_execR c9_synth "account balance" c9_record rfl
